import Mathlib

/-!
# silver-horn-opencl : `Source.cpp`

A shallow embedding of the single function `a()` of `Source.cpp`.

`a()` is straight-line code that talks to two outside parties: the C file
library (`fopen`, `fread`, `fclose`, `fprintf`, `printf`) and the compute
runtime (`clCreateProgramWithSource`, `clBuildProgram`, `clCreateKernel`).
The outside parties are a parameter, `World`: it answers every call, with any
handle, any data and any status.

`a w` follows the statements of `a()` to the closing brace, taking every call
to return: it is the frame of the local variables there, together with the
calls (in order, with their arguments and what each gave back) and the text
written to the two output streams.  Two calls of the C library do not return
when their stream is null, `fread` and `fclose`; `Call.returns` says so, and
`reached` cuts the calls of `a w` after the first call that does not return.
What `a w` holds beyond that point is the path the statements would take, not
calls that the process makes.
-/

namespace SilverHorn

/-! ## Data model -/

/-- An opaque handle (`FILE*`, `cl_program`, `cl_kernel`, `cl_device_id`,
`cl_context`, or a callback / user-data pointer); `0` is the null handle. -/
abbrev Handle := Nat

/-- The null handle, `NULL`. -/
def NULL : Handle := 0

/-- One byte of file data. -/
abbrev Byte := Nat

/-- What the local `char* source_str` can hold.  The declaration has no
initialiser, so the pointer starts indeterminate; `malloc n` would make it the
address of a block of `n` bytes. -/
inductive CharPtr
  | indeterminate
  | allocated (capacity : Nat)
  deriving DecidableEq, Repr

/-- Number of bytes that may be stored through the pointer. -/
def CharPtr.capacity : CharPtr → Nat
  | .indeterminate => 0
  | .allocated n => n

/-- Address of a local variable of `a()` handed to a callee. -/
inductive LocalAddr
  | ret
  deriving DecidableEq, Repr

/-- One item written to an output stream. -/
inductive Printed
  | text (s : String)
  | formatted (fmt : String) (arg : Int)
  deriving DecidableEq, Repr

/-- A call to the file library or to the compute runtime, with its arguments.
`clReleaseProgram` and `clReleaseKernel` belong to the runtime interface that
`CL/opencl.h` declares; they are listed so that their absence from a run can be
stated. -/
inductive Call
  | fopen (path mode : String)
  | fread (dst : CharPtr) (size count : Nat) (stream : Handle)
  | fclose (stream : Handle)
  | clCreateProgramWithSource (context : Handle) (count : Nat)
      (strings : List (List Byte)) (lengths : List (Option Nat))
      (errcode_ret : Option LocalAddr)
  | clBuildProgram (program : Handle) (num_devices : Nat) (device_list : List Handle)
      (options : Option String) (pfn_notify : Handle) (user_data : Handle)
  | clCreateKernel (program : Handle) (kernel_name : String)
      (errcode_ret : Option LocalAddr)
  | clReleaseProgram (program : Handle)
  | clReleaseKernel (kernel : Handle)
  deriving DecidableEq, Repr

/-- Which function a call is to. -/
inductive Op
  | fopen | fread | fclose
  | clCreateProgramWithSource | clBuildProgram | clCreateKernel
  | clReleaseProgram | clReleaseKernel
  deriving DecidableEq, Repr

/-- The function called. -/
def Call.op : Call → Op
  | .fopen .. => .fopen
  | .fread .. => .fread
  | .fclose .. => .fclose
  | .clCreateProgramWithSource .. => .clCreateProgramWithSource
  | .clBuildProgram .. => .clBuildProgram
  | .clCreateKernel .. => .clCreateKernel
  | .clReleaseProgram .. => .clReleaseProgram
  | .clReleaseKernel .. => .clReleaseKernel

/-- What `fread` did: the bytes it stored through the destination pointer and
the item count it returned. -/
structure FreadResult where
  stored : List Byte
  items : Nat
  deriving DecidableEq, Repr

/-- What a call gave back to `a()`. -/
inductive Response
  | handle (h : Handle)
  | read (r : FreadResult)
  | status (st : Int)
  | handleStatus (h : Handle) (st : Int)
  deriving DecidableEq, Repr

/-- A call together with what it gave back. -/
structure Event where
  call : Call
  result : Response
  deriving DecidableEq, Repr

/-- The outside parties.  Each field answers one kind of call, as a function of
the call's arguments. -/
structure World where
  fopen : String → String → Handle
  fread : CharPtr → Nat → Nat → Handle → FreadResult
  fclose : Handle → Int
  clCreateProgramWithSource :
    Handle → Nat → List (List Byte) → List (Option Nat) → Handle × Int
  clBuildProgram : Handle → Nat → List Handle → Option String → Int
  clCreateKernel : Handle → String → Handle × Int

/-- The local variables of `a()`, the memory reached through `source_str`, and
the effects so far.  A local declared without initialiser is `none` until it is
assigned. -/
structure Frame where
  program : Handle
  kernel : Handle
  device_id : Handle
  context : Handle
  ret : Int
  fp : Option Handle
  source_size : Option Nat
  source_str : CharPtr
  i : Option Int
  MAX_SOURCE_SIZE : Nat
  -- the bytes stored through source_str
  mem : List Byte
  trace : List Event
  stderr : List Printed
  stdout : List Printed
  deriving DecidableEq, Repr

/-! ## The program -/

/-- `const char fileName[] = "../forTest.cl";` -/
def fileName : String := "../forTest.cl"

/-- The text of the one `fprintf(stderr, ...)`. -/
def loadFailure : Printed := .text "Failed to load kernel.\n"

/-- The declarations at the top of `a()` (lines 10-21). -/
def entry : Frame :=
  { program := NULL
    kernel := NULL
    device_id := NULL
    context := NULL
    ret := 0
    fp := none
    source_size := none
    source_str := .indeterminate
    i := none
    MAX_SOURCE_SIZE := 200
    mem := []
    trace := []
    stderr := []
    stdout := [] }

/-- Record a call and what it gave back. -/
def Frame.call (s : Frame) (c : Call) (r : Response) : Frame :=
  { s with trace := s.trace ++ [⟨c, r⟩] }

/-- The body of the `try` block (lines 24-31).  The second component is the
`int` exception in flight when control leaves the block, if any: the block only
calls C library functions, which do not throw. -/
def tryBlock (w : World) (s : Frame) : Frame × Option Int :=
  -- fp = fopen(fileName, "r");
  let fp := w.fopen fileName "r"
  let s := { s.call (.fopen fileName "r") (.handle fp) with fp := some fp }
  -- if (!fp) { fprintf(stderr, "Failed to load kernel.\n"); //exit(1); }
  let s := if fp = NULL then { s with stderr := s.stderr ++ [loadFailure] } else s
  -- //source_str = (char*)malloc(MAX_SOURCE_SIZE);
  -- source_size = fread(source_str, 1, MAX_SOURCE_SIZE, fp);
  let r := w.fread s.source_str 1 s.MAX_SOURCE_SIZE fp
  let s := { s.call (.fread s.source_str 1 s.MAX_SOURCE_SIZE fp) (.read r) with
             mem := r.stored, source_size := some r.items }
  -- fclose(fp);
  let s := s.call (.fclose fp) (.status (w.fclose fp))
  (s, none)

/-- The handler `catch (int a) { printf("%f", a); }` (lines 33-35). -/
def catchInt (s : Frame) (a : Int) : Frame :=
  { s with stdout := s.stdout ++ [.formatted "%f" a] }

/-- The three runtime calls after the `try` statement (lines 38-44). -/
def build (w : World) (s : Frame) : Frame :=
  -- program = clCreateProgramWithSource(context, 1, &source_str, &source_size, &ret);
  let r := w.clCreateProgramWithSource s.context 1 [s.mem] [s.source_size]
  let s := { s.call (.clCreateProgramWithSource s.context 1 [s.mem] [s.source_size]
                       (some .ret)) (.handleStatus r.1 r.2) with
             program := r.1, ret := r.2 }
  -- ret = clBuildProgram(program, 1, &device_id, NULL, NULL, NULL);
  let st := w.clBuildProgram s.program 1 [s.device_id] none
  let s := { s.call (.clBuildProgram s.program 1 [s.device_id] none NULL NULL)
                       (.status st) with
             ret := st }
  -- kernel = clCreateKernel(program, "test", &ret);
  let k := w.clCreateKernel s.program "test"
  { s.call (.clCreateKernel s.program "test" (some .ret)) (.handleStatus k.1 k.2) with
    kernel := k.1, ret := k.2 }

/-- The function `a()`: the frame at its closing brace. -/
def a (w : World) : Frame :=
  let s :=
    match tryBlock w entry with
    | (s, none) => s
    | (s, some e) => catchInt s e
  build w s

/-! ## The file library on a real file -/

/-- What `fread` does on a stream just opened on a file with the given bytes:
it stores the leading `size * count` bytes of the file, or the whole file when
it is shorter (a trailing part of an item included), and returns the number of
whole items stored.  With items of size 0 nothing is read.  The entry for the
null stream is never used in the calls that a run makes: `fread` does not
return from it (`Call.returns`). -/
def freadFile (content : List Byte) (size count : Nat) (stream : Handle) : FreadResult :=
  if stream = NULL ∨ size = 0 then ⟨[], 0⟩
  else
    let stored := content.take (size * count)
    ⟨stored, stored.length / size⟩

/-- A world in which `../forTest.cl` exists with the given bytes and is opened
on handle `h`; any other path fails to open.  The runtime answers `rt`. -/
def fileWorld (content : List Byte) (h : Handle) (rt : World) : World :=
  { rt with
    fopen := fun path _ => if path = fileName then h else NULL
    fread := fun _ size count stream => freadFile content size count stream }

/-- A runtime that hands out fixed handles and statuses.  On its own it is a
world without files: `fopen` gives back the null handle for every path.  Its
entries for `fread` and `fclose` only fill the record: a run in this world
calls `fread` on the null stream, which does not return (`Call.returns`). -/
def constRuntime (prog : Handle) (createSt buildSt : Int) (kern : Handle) (kernSt : Int) :
    World :=
  { fopen := fun _ _ => NULL
    fread := fun _ _ _ _ => ⟨[], 0⟩
    fclose := fun _ => 0
    clCreateProgramWithSource := fun _ _ _ _ => (prog, createSt)
    clBuildProgram := fun _ _ _ _ => buildSt
    clCreateKernel := fun _ _ => (kern, kernSt) }

/-- The runtime used in the examples: program handle 3 created with status 0,
build status -11 (build failure), kernel handle 5 with status 0. -/
def rt0 : World := constRuntime 3 0 (-11) 5 0

/-- A two-byte file opened on handle 7; every runtime call reports status 0. -/
def quietWorld : World := fileWorld [107, 101] 7 (constRuntime 3 0 0 5 0)

/-- The same file and the same handles as `quietWorld`; the runtime calls
report the statuses -30, -11 and -46. -/
def noisyWorld : World := fileWorld [107, 101] 7 (constRuntime 3 (-30) (-11) 5 (-46))

/-- Bytes that the run stored beyond the storage behind `source_str`. -/
def bytesPastEnd (s : Frame) : Nat :=
  s.mem.length - s.source_str.capacity

/-! ## Reading a run -/

/-- The calls of a run, without what they gave back. -/
def calls (s : Frame) : List Call := s.trace.map Event.call

/-- The functions called in a run, in order. -/
def ops (s : Frame) : List Op := (calls s).map Call.op

/-- The handle an `fopen` event gave back. -/
def Event.opened : Event → Option Handle
  | ⟨.fopen .., .handle h⟩ => some h
  | _ => none

/-- The program handle a `clCreateProgramWithSource` event gave back. -/
def Event.createdProgram : Event → Option Handle
  | ⟨.clCreateProgramWithSource .., .handleStatus h _⟩ => some h
  | _ => none

/-- The status a `clBuildProgram` event gave back. -/
def Event.buildStatus : Event → Option Int
  | ⟨.clBuildProgram .., .status st⟩ => some st
  | _ => none

/-- The program argument of a `clBuildProgram` call. -/
def Call.built : Call → Option Handle
  | .clBuildProgram p .. => some p
  | _ => none

/-- The program and name arguments of a `clCreateKernel` call. -/
def Call.resolved : Call → Option (Handle × String)
  | .clCreateKernel p name _ => some (p, name)
  | _ => none

/-- The context and count arguments of a `clCreateProgramWithSource` call. -/
def Call.createHead : Call → Option (Handle × Nat)
  | .clCreateProgramWithSource ctx n .. => some (ctx, n)
  | _ => none

/-- The text and the byte count handed to `clCreateProgramWithSource`. -/
def Call.sourceGiven : Call → Option (List (List Byte) × List (Option Nat))
  | .clCreateProgramWithSource _ _ strings lengths _ => some (strings, lengths)
  | _ => none

/-- The arguments of a `clBuildProgram` call after the program handle. -/
def Call.buildTail : Call → Option (Nat × List Handle × Option String × Handle × Handle)
  | .clBuildProgram _ n devs opts cb ud => some (n, devs, opts, cb, ud)
  | _ => none

/-- The destination, item size and item count of an `fread` call. -/
def Call.readRequest : Call → Option (CharPtr × Nat × Nat)
  | .fread dst size count _ => some (dst, size, count)
  | _ => none

end SilverHorn

namespace SilverHorn

/-! ## Basic facts about a run -/

/-- The events of a run, written out. -/
theorem a_trace (w : World) :
    (a w).trace =
      [ ⟨.fopen fileName "r", .handle (w.fopen fileName "r")⟩,
        ⟨.fread .indeterminate 1 200 (w.fopen fileName "r"),
          .read (w.fread .indeterminate 1 200 (w.fopen fileName "r"))⟩,
        ⟨.fclose (w.fopen fileName "r"), .status (w.fclose (w.fopen fileName "r"))⟩,
        ⟨.clCreateProgramWithSource NULL 1
            [(w.fread .indeterminate 1 200 (w.fopen fileName "r")).stored]
            [some (w.fread .indeterminate 1 200 (w.fopen fileName "r")).items] (some .ret),
          .handleStatus (a w).program
            (w.clCreateProgramWithSource NULL 1
              [(w.fread .indeterminate 1 200 (w.fopen fileName "r")).stored]
              [some (w.fread .indeterminate 1 200 (w.fopen fileName "r")).items]).2⟩,
        ⟨.clBuildProgram (a w).program 1 [NULL] none NULL NULL,
          .status (w.clBuildProgram (a w).program 1 [NULL] none)⟩,
        ⟨.clCreateKernel (a w).program "test" (some .ret),
          .handleStatus (w.clCreateKernel (a w).program "test").1
            (w.clCreateKernel (a w).program "test").2⟩ ] := by
  unfold a tryBlock build
  by_cases h : w.fopen fileName "r" = NULL <;> simp [h, Frame.call, entry]

/-- The error stream of a run. -/
theorem a_stderr (w : World) :
    (a w).stderr = if w.fopen fileName "r" = NULL then [loadFailure] else [] := by
  unfold a tryBlock build
  by_cases h : w.fopen fileName "r" = NULL <;> simp [h, Frame.call, entry]

/-- The standard output of a run. -/
theorem a_stdout (w : World) : (a w).stdout = [] := by
  unfold a tryBlock build
  by_cases h : w.fopen fileName "r" = NULL <;> simp [h, Frame.call, entry]

/-- The functions called in a run. -/
theorem a_ops (w : World) :
    ops (a w) = [.fopen, .fread, .fclose, .clCreateProgramWithSource, .clBuildProgram,
      .clCreateKernel] := by
  simp [ops, calls, a_trace, Call.op]

/-- The handle `fopen` gave back in a run. -/
theorem a_opened (w : World) :
    (a w).trace.filterMap Event.opened = [w.fopen fileName "r"] := by
  simp [a_trace, Event.opened]

/-- The program handle held at the end of a run. -/
theorem a_program (w : World) :
    (a w).program =
      (w.clCreateProgramWithSource NULL 1
        [(w.fread .indeterminate 1 200 (w.fopen fileName "r")).stored]
        [some (w.fread .indeterminate 1 200 (w.fopen fileName "r")).items]).1 := by
  unfold a tryBlock build
  by_cases h : w.fopen fileName "r" = NULL <;> simp [h, Frame.call, entry]

/-- The status `clBuildProgram` gave back in a run. -/
theorem a_buildStatus (w : World) :
    (a w).trace.filterMap Event.buildStatus =
      [w.clBuildProgram (a w).program 1 [NULL] none] := by
  simp [a_trace, Event.buildStatus]

/-! ## The calls that a run makes -/

/-- C3, as stated, fails: with a two-byte file and a runtime whose
clBuildProgram gives back -11, the run still calls clCreateKernel. -/
theorem failed_build_still_resolves_kernel :
    (a (fileWorld [107, 101] 7 rt0)).trace.filterMap Event.buildStatus = [-11] ∧
    Op.clCreateKernel ∈ ops (a (fileWorld [107, 101] 7 rt0)) := by
  refine ⟨?_, ?_⟩
  · rw [a_buildStatus]; rfl
  · simp [a_ops]

/-- C3, amended: whatever status clBuildProgram gives back in a run, a
non-success status included, kernel resolution is attempted all the same: the
last two calls are clBuildProgram and then clCreateKernel, on one and the same
program handle, and clCreateKernel is called nowhere else. -/
theorem failed_build_is_ignored (w : World) :
    ∃ st, (a w).trace.filterMap Event.buildStatus = [st] ∧
    ∃ pre p n devs opts cb ud name ec,
      calls (a w) =
        pre ++ [Call.clBuildProgram p n devs opts cb ud, Call.clCreateKernel p name ec] ∧
      ∀ c ∈ pre, c.op ≠ Op.clCreateKernel := by
  refine ⟨_, a_buildStatus w,
    [.fopen fileName "r", .fread .indeterminate 1 200 (w.fopen fileName "r"),
      .fclose (w.fopen fileName "r"),
      .clCreateProgramWithSource NULL 1
        [(w.fread .indeterminate 1 200 (w.fopen fileName "r")).stored]
        [some (w.fread .indeterminate 1 200 (w.fopen fileName "r")).items] (some .ret)],
    (a w).program, 1, [NULL], none, NULL, NULL, "test", some .ret, ?_, ?_⟩
  · simp [calls, a_trace]
  · intro c hc
    simp only [List.mem_cons, List.mem_singleton, List.not_mem_nil, or_false] at hc
    rcases hc with rfl | rfl | rfl | rfl <;> simp [Call.op]

/-! ## Output -/

/-- C4: the try block never leaves with an exception, so the handler does not
run; a run writes nothing to standard output; and with `h` the handle that
fopen gave back, the error stream holds exactly the diagnostic when `h` is null
and nothing when it is not. -/
theorem output_decided_by_open (w : World) :
    (∀ s, (tryBlock w s).2 = none) ∧
    (a w).stdout = [] ∧
    ∃ h, (a w).trace.filterMap Event.opened = [h] ∧
      ((a w).stderr = [loadFailure] ↔ h = NULL) ∧
      (a w).stderr = if h = NULL then [loadFailure] else [] := by
  refine ⟨fun _ => rfl, a_stdout w, w.fopen fileName "r", a_opened w, ?_, a_stderr w⟩
  rw [a_stderr]
  by_cases h : w.fopen fileName "r" = NULL <;> simp [h]

/-! ## Reading the file -/

/-- The bytes stored through `source_str` in a run. -/
theorem a_mem (w : World) :
    (a w).mem = (w.fread .indeterminate 1 200 (w.fopen fileName "r")).stored := by
  unfold a tryBlock build
  by_cases h : w.fopen fileName "r" = NULL <;> simp [h, Frame.call, entry]

/-- The pointer `source_str` is never assigned. -/
theorem a_source_str (w : World) : (a w).source_str = .indeterminate := by
  unfold a tryBlock build
  by_cases h : w.fopen fileName "r" = NULL <;> simp [h, Frame.call, entry]

/-- What `fread` does for one-byte items on an open stream. -/
theorem freadFile_bytes (content : List Byte) (count : Nat) (h : Handle) (hh : h ≠ NULL) :
    freadFile content 1 count h =
      ⟨content.take (min content.length count), min content.length count⟩ := by
  have ht : content.take count = content.take (min content.length count) := by
    rw [List.take_eq_take]; simp
    exact min_comm _ _
  simp [freadFile, hh, ← ht, Nat.min_comm]

/-- On a file that opens, `a()` asks fread for 200 one-byte items and hands to
clCreateProgramWithSource the first min(length, 200) bytes of the file and
that byte count. -/
theorem file_read_is_truncated (content : List Byte) (h : Handle) (rt : World)
    (hh : h ≠ NULL) :
    (calls (a (fileWorld content h rt))).filterMap Call.readRequest =
      [(CharPtr.indeterminate, 1, 200)] ∧
    (calls (a (fileWorld content h rt))).filterMap Call.sourceGiven =
      [([content.take (min content.length 200)], [some (min content.length 200)])] ∧
    min content.length 200 ≤ 200 := by
  have hf : (fileWorld content h rt).fopen fileName "r" = h := by simp [fileWorld]
  have hr : (fileWorld content h rt).fread .indeterminate 1 200 h =
      ⟨content.take (min content.length 200), min content.length 200⟩ := by
    simp [fileWorld, freadFile_bytes content 200 h hh]
  refine ⟨?_, ?_, Nat.min_le_right _ _⟩
  · simp [calls, a_trace, Call.readRequest]
  · simp [calls, a_trace, Call.sourceGiven, hf, hr]

/-- On a file that opens, every byte that fread stores lands beyond the storage
behind `source_str`, because there is none. -/
theorem file_read_overrun (content : List Byte) (h : Handle) (rt : World) (hh : h ≠ NULL) :
    bytesPastEnd (a (fileWorld content h rt)) = min content.length 200 := by
  have hf : (fileWorld content h rt).fopen fileName "r" = h := by simp [fileWorld]
  have hr : (fileWorld content h rt).fread .indeterminate 1 200 h =
      ⟨content.take (min content.length 200), min content.length 200⟩ := by
    simp [fileWorld, freadFile_bytes content 200 h hh]
  simp [bytesPastEnd, a_mem, a_source_str, CharPtr.capacity, hf, hr]

/-- C5, the code at a failing input: for a file of 201 bytes opened on handle
7, fread is asked for 200 one-byte items with the never-assigned `source_str`
as destination, which has no storage behind it; 200 bytes are stored and all
200 lie past the end of the destination. -/
theorem read_overruns_unallocated_destination :
    (calls (a (fileWorld (List.replicate 201 65) 7 rt0))).filterMap Call.readRequest =
      [(CharPtr.indeterminate, 1, 200)] ∧
    CharPtr.indeterminate.capacity = 0 ∧
    (a (fileWorld (List.replicate 201 65) 7 rt0)).mem = List.replicate 200 65 ∧
    bytesPastEnd (a (fileWorld (List.replicate 201 65) 7 rt0)) = 200 := by
  refine ⟨?_, rfl, ?_, ?_⟩
  · simp [calls, a_trace, Call.readRequest]
  · have hf : (fileWorld (List.replicate 201 65) 7 rt0).fopen fileName "r" = 7 := by
      simp [fileWorld]
    have hr : (fileWorld (List.replicate 201 65) 7 rt0).fread .indeterminate 1 200 7 =
        freadFile (List.replicate 201 65) 1 200 7 := rfl
    rw [a_mem, hf, hr, freadFile_bytes _ 200 7 (by decide), List.length_replicate,
      List.take_replicate]
    show List.replicate (min (min 201 200) 201) 65 = List.replicate 200 65
    have h200 : min (min 201 200) 201 = 200 := by decide
    rw [h200]
  · rw [file_read_overrun _ _ _ (by decide), List.length_replicate]
    decide

/-! ## Closing the file -/

/-- C8: two worlds that answer fopen and fread alike and hand out the same
program and kernel handles, but report any statuses whatever from
clCreateProgramWithSource, clBuildProgram and clCreateKernel, lead to the same
calls with the same arguments in the same order and to the same output on both
streams. -/
theorem statuses_do_not_influence (w1 w2 : World)
    (hopen : w1.fopen = w2.fopen) (hread : w1.fread = w2.fread)
    (hprog : ∀ ctx n strings lengths,
      (w1.clCreateProgramWithSource ctx n strings lengths).1 =
        (w2.clCreateProgramWithSource ctx n strings lengths).1)
    (hkern : ∀ prog name, (w1.clCreateKernel prog name).1 = (w2.clCreateKernel prog name).1) :
    calls (a w1) = calls (a w2) ∧
    (a w1).stderr = (a w2).stderr ∧
    (a w1).stdout = (a w2).stdout ∧
    (a w1).program = (a w2).program ∧
    (a w1).kernel = (a w2).kernel := by
  have hp : (a w1).program = (a w2).program := by
    rw [a_program, a_program, hopen, hread, hprog]
  have hk : ∀ w : World, (a w).kernel = (w.clCreateKernel (a w).program "test").1 := by
    intro w
    unfold a tryBlock build
    by_cases h : w.fopen fileName "r" = NULL <;> simp [h, Frame.call, entry]
  refine ⟨?_, ?_, ?_, hp, ?_⟩
  · simp only [calls, a_trace, List.map_cons, List.map_nil, hp, hopen, hread]
  · rw [a_stderr, a_stderr, hopen]
  · rw [a_stdout, a_stdout]
  · rw [hk w1, hk w2, hp, hkern]

/-- Witness for C8: the same two-byte file and the same handles, once with all
statuses 0 and once with statuses -30, -11 and -46; the calls and the output
agree although the final value of `ret` does not. -/
theorem statuses_do_not_influence_witness :
    quietWorld.fopen = noisyWorld.fopen ∧ quietWorld.fread = noisyWorld.fread ∧
    (a quietWorld).ret = 0 ∧ (a noisyWorld).ret = -46 ∧
    calls (a quietWorld) = calls (a noisyWorld) ∧
    (a quietWorld).stderr = (a noisyWorld).stderr ∧
    (a quietWorld).stdout = (a noisyWorld).stdout ∧
    (a quietWorld).program = (a noisyWorld).program ∧
    (a quietWorld).kernel = (a noisyWorld).kernel :=
  ⟨rfl, rfl, rfl, rfl,
    statuses_do_not_influence quietWorld noisyWorld rfl rfl (fun _ _ _ _ => rfl)
      (fun _ _ => rfl)⟩

/-! ## Arguments of the runtime calls -/

/-- C9: with `h` the handle that clCreateProgramWithSource gave back in a run
(whatever the status, null or not), the one clBuildProgram call and the one
clCreateKernel call both take `h` as program, and the kernel name is "test". -/
theorem program_handle_is_passed_on (w : World) :
    ∃ h, (a w).trace.filterMap Event.createdProgram = [h] ∧
      (calls (a w)).filterMap Call.built = [h] ∧
      (calls (a w)).filterMap Call.resolved = [(h, "test")] := by
  refine ⟨(a w).program, ?_, ?_, ?_⟩
  · simp [a_trace, Event.createdProgram]
  · simp [calls, a_trace, Call.built]
  · simp [calls, a_trace, Call.resolved]

/-- C10: the locals `context` and `device_id` are null at the end of a run as
at its start; the one clCreateProgramWithSource call takes a null context and
a count of 1; the one clBuildProgram call takes a device count of 1, a device
list holding the null handle only, no options, a null callback and null user
data. -/
theorem context_and_device_are_null (w : World) :
    (a w).context = NULL ∧ (a w).device_id = NULL ∧
    (calls (a w)).filterMap Call.createHead = [(NULL, 1)] ∧
    (calls (a w)).filterMap Call.buildTail = [(1, [NULL], none, NULL, NULL)] := by
  refine ⟨?_, ?_, ?_, ?_⟩
  · unfold a tryBlock build
    by_cases h : w.fopen fileName "r" = NULL <;> simp [h, Frame.call, entry]
  · unfold a tryBlock build
    by_cases h : w.fopen fileName "r" = NULL <;> simp [h, Frame.call, entry]
  · simp [calls, a_trace, Call.createHead]
  · simp [calls, a_trace, Call.buildTail]

end SilverHorn
